import Mathlib

/-!
Shallow embedding of `src/scripts/markitdown_converter.py`, a CLI wrapper
around an external document-to-markdown converter.  Pure Python values are
modelled directly; the file system is a list of existing paths; the external
converter (construction of the `MarkItDown` object together with its
`convert` call) is an abstract oracle returning either the produced markdown
text or the string representation of a raised exception.  Python dictionaries
returned by the conversion functions are modelled as association lists so
that key presence is observable.
-/

/-- A JSON-like value, the kind of value stored in the result dictionaries. -/
inductive JValue where
  | null : JValue
  | bool : Bool → JValue
  | str : String → JValue
  deriving Repr, DecidableEq

/-- A Python dict as produced by the script: an association list from keys
to values, in the order the dict literal writes them. -/
def ResultDict : Type := List (String × JValue)

instance : DecidableEq ResultDict := by
  unfold ResultDict
  infer_instance

/-- The keys of a result dictionary, in order. -/
def dictKeys (d : ResultDict) : List String := d.map Prod.fst

/-- Look a key up in a result dictionary. -/
def dictGet (d : ResultDict) (k : String) : Option JValue :=
  List.lookup k d

/-- The Python exceptions that can escape the conversion functions: only the
`ImportError` raised by `from markitdown import MarkItDown`, since every
other exception is caught. -/
inductive PyExn where
  | importError : PyExn
  deriving Repr, DecidableEq

/-- The oracle for `MarkItDown(enable_plugins=...).convert(path)` used by
`convert_file`: given the plugin flag and the path, it either returns the
markdown text or raises, yielding `str(e)` of the exception. -/
def ConvOracle : Type := Bool → String → Except String String

/-- The oracle used by `convert_bytes`: it also observes the byte content
that was written to the temporary file it is asked to convert. -/
def BytesOracle : Type := Bool → String → List Nat → Except String String

/-- `os.path.exists` over the modelled file system. -/
def os_path_exists (fs : List String) (p : String) : Bool := fs.contains p

/-- `os.path.basename`: everything after the last slash. -/
def os_path_basename (p : String) : String :=
  String.mk ((p.data.reverse.takeWhile (fun c => c ≠ '/')).reverse)

/-- Split a character list at every `'/'` (the components of
`p.split('/')`). -/
def slashComponents : List Char → List (List Char)
  | [] => [[]]
  | c :: rest =>
    let r := slashComponents rest
    if c = '/' then [] :: r
    else
      match r with
      | [] => [[c]]
      | h :: t => (c :: h) :: t

/-- `pathlib.PurePath(p).name`: the last path component, after dropping
empty and `.` components. -/
def pathlibName (p : String) : String :=
  match ((slashComponents p.data).filter (fun c => c ≠ [] && c ≠ ['.'])).getLast? with
  | some c => String.mk c
  | none => ""

/-- Index of the last `'.'` in a character list (`str.rfind('.')`). -/
def rfindDot : List Char → Option Nat
  | [] => none
  | c :: rest =>
    match rfindDot rest with
    | some i => some (i + 1)
    | none => if c = '.' then some 0 else none

/-- `pathlib.PurePath(p).suffix`: the final extension of the name, kept only
when the last dot is neither the first nor the last character of the name. -/
def pathSuffix (p : String) : String :=
  let name := (pathlibName p).data
  match rfindDot name with
  | some i => if 0 < i && i + 1 < name.length then String.mk (name.drop i) else ""
  | none => ""

/-- `str.lower()`: lowercase every character. -/
def str_lower (s : String) : String := String.mk (s.data.map Char.toLower)

/-- `str.startswith('.')`. -/
def startsWithDot (s : String) : Bool :=
  match s.data with
  | [] => false
  | c :: _ => c = '.'

/-- `check_markitdown_installed`: the guarded import succeeds exactly when
the dependency is available. -/
def check_markitdown_installed (installed : Bool) : Bool := installed

/-- Body of `convert_file` after the module-level import has succeeded:
existence check, then delegation to the converter with exceptions turned
into failure dictionaries. -/
def convert_file_core (fs : List String) (conv : ConvOracle)
    (file_path : String) (enable_plugins : Bool) : ResultDict :=
  if !(os_path_exists fs file_path) then
    [("success", JValue.bool false),
     ("error", JValue.str ("File not found: " ++ file_path)),
     ("markdown", JValue.null),
     ("file_path", JValue.str file_path)]
  else
    match conv enable_plugins file_path with
    | Except.ok text =>
      [("success", JValue.bool true),
       ("error", JValue.null),
       ("markdown", JValue.str text),
       ("file_path", JValue.str file_path),
       ("file_name", JValue.str (os_path_basename file_path)),
       ("file_extension", JValue.str (str_lower (pathSuffix file_path)))]
    | Except.error e =>
      [("success", JValue.bool false),
       ("error", JValue.str e),
       ("markdown", JValue.null),
       ("file_path", JValue.str file_path)]

/-- `convert_file`: the `from markitdown import MarkItDown` line runs before
any try/except, so a missing dependency raises to the caller. -/
def convert_file (installed : Bool) (fs : List String) (conv : ConvOracle)
    (file_path : String) (enable_plugins : Bool) : Except PyExn ResultDict :=
  if installed then Except.ok (convert_file_core fs conv file_path enable_plugins)
  else Except.error PyExn.importError

/-- Body of `convert_bytes` after the imports: normalize the extension,
write the buffer to a fresh temporary file (`tempStem` is the unique stem
chosen by `tempfile.NamedTemporaryFile`, the suffix is the normalized
extension), convert, and unlink the temporary file in a `finally` block;
the outer `except` turns a raised conversion exception into a failure
dictionary.  Returns the dictionary and the final file system. -/
def convert_bytes_core (fs : List String) (conv : BytesOracle)
    (content : List Nat) (file_extension : String) (enable_plugins : Bool)
    (tempStem : String) : ResultDict × List String :=
  let ext := if startsWithDot file_extension then file_extension
             else "." ++ file_extension
  let temp_path := tempStem ++ ext
  let fs1 := temp_path :: fs
  match conv enable_plugins temp_path content with
  | Except.ok text =>
    ([("success", JValue.bool true),
      ("error", JValue.null),
      ("markdown", JValue.str text),
      ("file_extension", JValue.str ext)],
     fs1.erase temp_path)
  | Except.error e =>
    ([("success", JValue.bool false),
      ("error", JValue.str e),
      ("markdown", JValue.null),
      ("file_extension", JValue.str ext)],
     fs1.erase temp_path)

/-- `convert_bytes`: the import runs before the try/except, so a missing
dependency raises; otherwise the body runs.  Returns the outcome (result
dictionary or escaped exception) together with the final file system. -/
def convert_bytes (installed : Bool) (fs : List String) (conv : BytesOracle)
    (content : List Nat) (file_extension : String) (enable_plugins : Bool)
    (tempStem : String) : Except PyExn ResultDict × List String :=
  if installed then
    let r := convert_bytes_core fs conv content file_extension enable_plugins tempStem
    (Except.ok r.1, r.2)
  else (Except.error PyExn.importError, fs)

/-- The parsed command-line arguments, as produced by `argparse`. -/
structure Args where
  file_path : Option String
  output : Option String
  json : Bool
  enable_plugins : Bool
  check : Bool
  deriving Repr, DecidableEq

/-- One item printed to stdout: plain text (`print(s)`) or a serialized
dictionary (`print(json.dumps(d))`). -/
inductive OutItem where
  | text : String → OutItem
  | jsonOut : ResultDict → OutItem
  deriving DecidableEq

/-- The observable outcome of one process run: exit code, stdout items,
stderr lines, and the final file system. -/
structure ProcResult where
  exitCode : Nat
  stdout : List OutItem
  stderr : List String
  fs : List String
  deriving DecidableEq

/-- The install-hint message used both by `--check` and by `main`. -/
def not_installed_msg : String :=
  "markitdown not installed. Run: pip install markitdown"

/-- The usage line `argparse` prints when `parser.error` is called. -/
def usage_line : String :=
  "usage: markitdown_converter.py [-h] [--output OUTPUT] [--json] [--enable-plugins] [--check] [file_path]"

/-- The error line `parser.error` prints for a missing file path. -/
def usage_error_line : String :=
  "markitdown_converter.py: error: file_path is required for conversion (use --check to verify installation)"

/-- The `error_result` dictionary `main` builds when the dependency is
missing. -/
def missing_dep_result : ResultDict :=
  [("success", JValue.bool false),
   ("error", JValue.str not_installed_msg),
   ("markdown", JValue.null)]

/-- `result["success"]` read as a truth value. -/
def dictSuccess (d : ResultDict) : Bool :=
  match dictGet d "success" with
  | some (JValue.bool b) => b
  | _ => false

/-- `result["markdown"]` read as text (the success branches only read it
when it is a string). -/
def dictMarkdown (d : ResultDict) : String :=
  match dictGet d "markdown" with
  | some (JValue.str s) => s
  | _ => ""

/-- `result["error"]` read as text. -/
def dictError (d : ResultDict) : String :=
  match dictGet d "error" with
  | some (JValue.str s) => s
  | _ => ""

namespace Cli

/-- `main`: argument handling exactly as in the script.  `--check`
short-circuits; a missing positional path goes through `parser.error`
(which exits with status 2); a missing dependency is reported and exits 1;
otherwise `convert_file` runs and its result is printed.  In `--json` mode
the function falls off the end of the if/elif chain, so the process exits 0
whatever the result says; only the plain-mode failure branch calls
`sys.exit(1)`. -/
def main (args : Args) (installed : Bool) (fs : List String)
    (conv : ConvOracle) : ProcResult :=
  if args.check then
    if check_markitdown_installed installed then
      ⟨0, [OutItem.jsonOut [("installed", JValue.bool true)]], [], fs⟩
    else
      ⟨1, [OutItem.jsonOut [("installed", JValue.bool false),
                            ("error", JValue.str not_installed_msg)]], [], fs⟩
  else
    match args.file_path with
    | none => ⟨2, [], [usage_line, usage_error_line], fs⟩
    | some path =>
      if !(check_markitdown_installed installed) then
        if args.json then ⟨1, [OutItem.jsonOut missing_dep_result], [], fs⟩
        else ⟨1, [], ["Error: " ++ not_installed_msg], fs⟩
      else
        match convert_file installed fs conv path args.enable_plugins with
        | Except.error _ =>
          ⟨1, [], ["Traceback (uncaught exception)"], fs⟩
        | Except.ok result =>
          if args.json then ⟨0, [OutItem.jsonOut result], [], fs⟩
          else if dictSuccess result then
            match args.output with
            | some out =>
              ⟨0, [OutItem.text ("Converted successfully: " ++ out)], [],
               if fs.contains out then fs else out :: fs⟩
            | none => ⟨0, [OutItem.text (dictMarkdown result)], [], fs⟩
          else ⟨1, [], ["Error: " ++ dictError result], fs⟩

end Cli

/-- A concrete converter oracle that always raises, used to instantiate
universally quantified statements. -/
def conv0 : ConvOracle := fun _ _ => Except.error "boom"

/-- A concrete converter oracle that always succeeds. -/
def conv1 : ConvOracle := fun _ _ => Except.ok "# heading"

/-- A concrete bytes-converter oracle that always succeeds. -/
def bconv0 : BytesOracle := fun _ _ _ => Except.ok "md"

/-- The documented shape invariant of a `ConversionResult`: a successful
result carries markdown text and a null error, a failed result carries an
error string and a null markdown. -/
def resultInvariant (d : ResultDict) : Prop :=
  (dictGet d "success" = some (JValue.bool true) →
     (∃ s, dictGet d "markdown" = some (JValue.str s)) ∧
     dictGet d "error" = some JValue.null) ∧
  (dictGet d "success" = some (JValue.bool false) →
     (∃ s, dictGet d "error" = some (JValue.str s)) ∧
     dictGet d "markdown" = some JValue.null)

/-- Claim C1: for every byte buffer, extension, plugin flag and install
state, the set of files visible to `convert_bytes` is unchanged between
entry and return: the temporary file it creates (its stem `tempStem`, its
suffix the normalized extension) is unlinked on the success path and, via
the `finally` block feeding the outer `except`, on the failure and
exception paths as well. -/
theorem convert_bytes_preserves_fs (installed : Bool) (fs : List String)
    (conv : BytesOracle) (content : List Nat) (ext : String) (eb : Bool)
    (stem : String) :
    (convert_bytes installed fs conv content ext eb stem).2 = fs := by
  unfold convert_bytes convert_bytes_core
  cases installed with
  | false => simp
  | true =>
    simp only [if_true]
    cases conv eb (stem ++ (if startsWithDot ext then ext else "." ++ ext)) content <;>
      simp [List.erase_cons_head]

/-- Claim C2, counterexample: in `--json` mode a failing conversion still
exits with code 0, because the json branch of `main` never calls
`sys.exit(1)`.  Here the file does not exist, so the conversion result has
`success=false`, yet the exit code is 0, not 1 as the claim states. -/
theorem main_json_failure_exit_cex :
    (Cli.main ⟨some "doc.pdf", none, true, false, false⟩ true [] conv0).exitCode = 0 ∧
    dictSuccess (convert_file_core [] conv0 "doc.pdf" false) = false := by
  constructor
  · rfl
  · rfl

/-- Claim C2, amended: with a file path, without `--check`, and with the
dependency installed, the exit code is 0 on success and 1 on failure in
plain mode, while in `--json` mode the exit code is 0 regardless of the
conversion outcome. -/
theorem main_exit_codes (args : Args) (p : String) (fs : List String)
    (conv : ConvOracle)
    (hc : args.check = false) (hp : args.file_path = some p) :
    (Cli.main args true fs conv).exitCode =
      if args.json then 0
      else if dictSuccess (convert_file_core fs conv p args.enable_plugins) then 0
      else 1 := by
  unfold Cli.main
  rw [hc, hp]
  simp only [check_markitdown_installed, convert_file, if_true, Bool.not_true,
    Bool.false_eq_true, if_false]
  cases hj : args.json with
  | true => simp
  | false =>
    simp only [Bool.false_eq_true, if_false]
    cases hs : dictSuccess (convert_file_core fs conv p args.enable_plugins) with
    | true =>
      cases args.output <;> simp
    | false => simp

/-- Claim C2, witness: a concrete plain-mode run on a missing file exits
with code 1. -/
theorem main_exit_codes_witness :
    (Cli.main ⟨some "a.md", none, false, false, false⟩ true [] conv0).exitCode = 1 := by
  rw [main_exit_codes ⟨some "a.md", none, false, false, false⟩ "a.md" [] conv0 rfl rfl]
  decide

/-- Claim C3: when the path exists and the external converter (its
construction or its convert call, both inside the `try`) raises with
message `e`, `convert_file` returns — rather than raises — a failure
dictionary with `success=false`, `error` equal to `str(e)` and
`markdown=null`. -/
theorem convert_file_catches (fs : List String) (conv : ConvOracle) (p : String)
    (eb : Bool) (e : String)
    (hex : os_path_exists fs p = true) (hconv : conv eb p = Except.error e) :
    convert_file true fs conv p eb =
      Except.ok [("success", JValue.bool false), ("error", JValue.str e),
                 ("markdown", JValue.null), ("file_path", JValue.str p)] := by
  unfold convert_file convert_file_core
  simp [hex, hconv]

/-- Claim C3, witness: a concrete raising converter on an existing file. -/
theorem convert_file_catches_witness :
    convert_file true ["a.pdf"] conv0 "a.pdf" false =
      Except.ok [("success", JValue.bool false), ("error", JValue.str "boom"),
                 ("markdown", JValue.null), ("file_path", JValue.str "a.pdf")] :=
  convert_file_catches ["a.pdf"] conv0 "a.pdf" false "boom" rfl rfl

/-- Claim C4: on a non-existent path (with the dependency importable, so
that the module-level import does not raise), `convert_file` returns — for
every converter oracle, showing the converter is never consulted — a
failure dictionary whose error string mentions the path, with
`markdown=null`, and raises nothing. -/
theorem convert_file_missing_path (fs : List String) (p : String) (eb : Bool)
    (h : os_path_exists fs p = false) :
    (∀ conv : ConvOracle, convert_file true fs conv p eb =
      Except.ok [("success", JValue.bool false),
                 ("error", JValue.str ("File not found: " ++ p)),
                 ("markdown", JValue.null), ("file_path", JValue.str p)]) ∧
    (∃ pre, "File not found: " ++ p = pre ++ p) := by
  constructor
  · intro conv
    unfold convert_file convert_file_core
    simp [h]
  · exact ⟨"File not found: ", rfl⟩

/-- Claim C4, witness: a concrete non-existent path. -/
theorem convert_file_missing_path_witness :
    (∀ conv : ConvOracle, convert_file true [] conv "ghost.pdf" false =
      Except.ok [("success", JValue.bool false),
                 ("error", JValue.str ("File not found: " ++ "ghost.pdf")),
                 ("markdown", JValue.null), ("file_path", JValue.str "ghost.pdf")]) ∧
    (∃ pre, "File not found: " ++ "ghost.pdf" = pre ++ "ghost.pdf") :=
  convert_file_missing_path [] "ghost.pdf" false rfl

/-- Claim C5: every dictionary produced by the body of `convert_file` or
`convert_bytes` satisfies the result invariant: `success=true` comes with
string markdown and null error, `success=false` with string error and null
markdown. -/
theorem conversion_result_invariant (fs : List String) (conv : ConvOracle)
    (bconv : BytesOracle) (p : String) (eb : Bool) (content : List Nat)
    (ext : String) (stem : String) :
    resultInvariant (convert_file_core fs conv p eb) ∧
    resultInvariant (convert_bytes_core fs bconv content ext eb stem).1 := by
  constructor
  · unfold convert_file_core
    cases hex : os_path_exists fs p with
    | false => simp [resultInvariant, dictGet, List.lookup]
    | true =>
      cases hconv : conv eb p with
      | ok text => simp [hconv, resultInvariant, dictGet, List.lookup]
      | error e => simp [hconv, resultInvariant, dictGet, List.lookup]
  · unfold convert_bytes_core
    cases hconv : bconv eb (stem ++ (if startsWithDot ext then ext else "." ++ ext)) content with
    | ok text => simp [hconv, resultInvariant, dictGet, List.lookup]
    | error e => simp [hconv, resultInvariant, dictGet, List.lookup]

/-- Claim C6: for an extension that does not already start with a dot,
`convert_bytes` behaves exactly as on the dotted extension: the
normalization `'.' + file_extension` happens before the temporary file
name, the converter call and the result dictionary are built. -/
theorem convert_bytes_extension_normalized (installed : Bool) (fs : List String)
    (conv : BytesOracle) (content : List Nat) (e : String) (eb : Bool)
    (stem : String) (h : startsWithDot e = false) :
    convert_bytes installed fs conv content e eb stem =
    convert_bytes installed fs conv content ("." ++ e) eb stem := by
  have hdot : startsWithDot ("." ++ e) = true := by
    cases e with
    | mk data => rfl
  unfold convert_bytes convert_bytes_core
  rw [h, hdot]
  simp

/-- Claim C6, witness: `"pdf"` and `".pdf"` give the same run. -/
theorem convert_bytes_extension_normalized_witness :
    convert_bytes true [] bconv0 [] "pdf" false "/tmp/t0" =
    convert_bytes true [] bconv0 [] ".pdf" false "/tmp/t0" :=
  convert_bytes_extension_normalized true [] bconv0 [] "pdf" false "/tmp/t0" rfl

/-- Claim C7, counterexample: invoking without a positional path and
without `--check` goes through `parser.error`, which exits with status 2,
not 1 as the claim states. -/
theorem main_no_path_cex :
    (Cli.main ⟨none, none, false, false, false⟩ true [] conv0).exitCode = 2 ∧
    ¬ (Cli.main ⟨none, none, false, false, false⟩ true [] conv0).exitCode = 1 := by
  decide

/-- Claim C7, amended: without a positional path and without `--check`,
the run is the fixed usage-error outcome — exit code 2, a usage message on
stderr, the file system untouched — for every converter oracle and install
state, so no conversion is ever performed. -/
theorem main_no_path (args : Args) (installed : Bool) (fs : List String)
    (conv : ConvOracle)
    (hc : args.check = false) (hp : args.file_path = none) :
    Cli.main args installed fs conv = ⟨2, [], [usage_line, usage_error_line], fs⟩ := by
  unfold Cli.main
  rw [hc, hp]
  simp

/-- Claim C7, witness: a concrete invocation with no path. -/
theorem main_no_path_witness :
    Cli.main ⟨none, some "out.md", false, true, false⟩ true ["x"] conv0 =
      ⟨2, [], [usage_line, usage_error_line], ["x"]⟩ :=
  main_no_path ⟨none, some "out.md", false, true, false⟩ true ["x"] conv0 rfl rfl

/-- Claim C8: when the path exists and the converter returns `text`, the
`convert_file` result carries the markdown text, the path exactly as
supplied, `file_name = os.path.basename(path)` and `file_extension =
pathlib suffix of the path, lowercased`. -/
theorem convert_file_success_fields (fs : List String) (conv : ConvOracle)
    (p : String) (eb : Bool) (text : String)
    (hex : os_path_exists fs p = true) (hconv : conv eb p = Except.ok text) :
    convert_file true fs conv p eb = Except.ok
      [("success", JValue.bool true), ("error", JValue.null),
       ("markdown", JValue.str text), ("file_path", JValue.str p),
       ("file_name", JValue.str (os_path_basename p)),
       ("file_extension", JValue.str (str_lower (pathSuffix p)))] := by
  unfold convert_file convert_file_core
  simp [hex, hconv]

/-- Claim C8, witness: on `"dir/Report.PDF"` the derived fields evaluate to
`"Report.PDF"` and `".pdf"`. -/
theorem convert_file_success_fields_witness :
    convert_file true ["dir/Report.PDF"] conv1 "dir/Report.PDF" false = Except.ok
      [("success", JValue.bool true), ("error", JValue.null),
       ("markdown", JValue.str "# heading"), ("file_path", JValue.str "dir/Report.PDF"),
       ("file_name", JValue.str "Report.PDF"),
       ("file_extension", JValue.str ".pdf")] := by
  have h1 : os_path_basename "dir/Report.PDF" = "Report.PDF" := by decide
  have h2 : str_lower (pathSuffix "dir/Report.PDF") = ".pdf" := by decide
  rw [convert_file_success_fields ["dir/Report.PDF"] conv1 "dir/Report.PDF" false "# heading" rfl rfl, h1, h2]

/-- Claim C9, counterexample: in `--json` mode with the dependency missing,
the printed object is `error_result`, whose keys are only `success`,
`error` and `markdown`: neither `file_path` nor `file_extension` is
present, contrary to the claim. -/
theorem main_missing_dep_json_cex :
    (Cli.main ⟨some "doc.pdf", none, true, false, false⟩ false [] conv0).stdout =
      [OutItem.jsonOut missing_dep_result] ∧
    dictKeys missing_dep_result = ["success", "error", "markdown"] ∧
    "file_path" ∉ dictKeys missing_dep_result ∧
    "file_extension" ∉ dictKeys missing_dep_result := by
  refine ⟨rfl, rfl, ?_, ?_⟩ <;> decide

/-- Claim C9, amended: in `--json` mode exactly one object is printed; its
keys are `success, error, markdown, file_path, file_name, file_extension`
on success and `success, error, markdown, file_path` on conversion
failure, but only `success, error, markdown` in the missing-dependency
failure. -/
theorem main_json_keys (args : Args) (p : String) (installed : Bool)
    (fs : List String) (conv : ConvOracle)
    (hc : args.check = false) (hj : args.json = true) (hp : args.file_path = some p) :
    ∃ d, (Cli.main args installed fs conv).stdout = [OutItem.jsonOut d] ∧
      dictKeys d = (if installed then
          (if dictSuccess d then
            ["success", "error", "markdown", "file_path", "file_name", "file_extension"]
          else ["success", "error", "markdown", "file_path"])
        else ["success", "error", "markdown"]) := by
  unfold Cli.main
  rw [hc, hp]
  cases installed with
  | false =>
    refine ⟨missing_dep_result, ?_, ?_⟩
    · simp [check_markitdown_installed, hj]
    · decide
  | true =>
    refine ⟨convert_file_core fs conv p args.enable_plugins, ?_, ?_⟩
    · simp [check_markitdown_installed, convert_file, hj]
    · simp only [if_true]
      unfold convert_file_core
      cases hex : os_path_exists fs p with
      | false => simp [dictKeys, dictSuccess, dictGet, List.lookup]
      | true =>
        cases hconv : conv args.enable_plugins p with
        | ok text => simp [hconv, dictKeys, dictSuccess, dictGet, List.lookup]
        | error e => simp [hconv, dictKeys, dictSuccess, dictGet, List.lookup]

/-- Claim C9, witness: a concrete successful json-mode run. -/
theorem main_json_keys_witness :
    ∃ d, (Cli.main ⟨some "a.md", none, true, false, false⟩ true ["a.md"] conv1).stdout =
        [OutItem.jsonOut d] ∧
      dictKeys d = (if (true : Bool) then
          (if dictSuccess d then
            ["success", "error", "markdown", "file_path", "file_name", "file_extension"]
          else ["success", "error", "markdown", "file_path"])
        else ["success", "error", "markdown"]) :=
  main_json_keys ⟨some "a.md", none, true, false, false⟩ "a.md" true ["a.md"] conv1 rfl rfl rfl

/-- Claim C10: with the dependency missing, the module-level
`from markitdown import MarkItDown` raises before any try/except is
entered, so both `convert_file` and `convert_bytes` raise the import error
to their caller instead of returning a failure dictionary. -/
theorem missing_dependency_raises (fs : List String) (conv : ConvOracle)
    (bconv : BytesOracle) (p : String) (eb : Bool) (content : List Nat)
    (ext : String) (stem : String) :
    convert_file false fs conv p eb = Except.error PyExn.importError ∧
    (convert_bytes false fs bconv content ext eb stem).1 = Except.error PyExn.importError :=
  ⟨rfl, rfl⟩
